import Mathlib

/-!
Verification of the concurrent coupon ingestion and validation pipeline of
`ravibandhu/oolio-food-ordering` (`internal/data/coupons_concurrent.go`).

The Go source is embedded shallowly:
* Go `map[string]uint32` with `m[k] |= v` updates is modelled as a total
  function `String → Nat` whose default value `0` stands for an absent key
  (reading an absent key in Go yields the zero value, and `flushBatchSharded`
  skips zero masks, so an entry is present in the Go map with a non-zero mask
  exactly when the modelled function is non-zero).
* Go `map[string]struct{}` (the validated set) is modelled as `String → Bool`.
* `uint32` values are modelled as `Nat`; the only arithmetic that can wrap is
  the FNV-1a hash multiplication, which carries an explicit `% 2 ^ 32`.
  The presence masks are `1 <<< fileIndex` with `fileIndex < 3`, far below
  `2 ^ 32`, and are only combined with `|||`, so they never wrap.
* Go `len(s)` on a string is its byte length, modelled as
  `String.utf8ByteSize`.
* goroutine scheduling is resolved by a canonical file-order interleaving of
  the reader outputs; the order-independence theorem for the OR-aggregation
  (claim C9) shows that any other interleaving or batching yields the same
  sharded masks and the same membership set.
-/

namespace OolioCoupons

/-- Source `math/bits.OnesCount32`: the number of one bits of a 32-bit value. -/
def onesCount32 (n : Nat) : Nat :=
  (List.range 32).countP (fun i => n.testBit i)

/-- The records flowing on `dataChan` (struct `couponData`, lines 56-59). -/
structure couponData where
  couponString : String
  fileBitmask : Nat
deriving DecidableEq

/-- Source `const numShards = 256` (line 62). -/
def numShards : Nat := 256

/-- One FNV-1a step: xor the byte in, multiply by the 32-bit FNV prime
16777619, reduced mod `2 ^ 32` as `uint32` arithmetic wraps. -/
def fnv1aStep (h b : Nat) : Nat := ((h ^^^ b) * 16777619) % 2 ^ 32

/-- Source `hash/fnv.New32a` + `Write` + `Sum32`: FNV-1a over the UTF-8 bytes of the
string, starting from the 32-bit offset basis 2166136261. -/
def fnv32a (s : String) : Nat :=
  (s.data.flatMap String.utf8EncodeChar).foldl
    (fun h b => fnv1aStep h b.toNat) 2166136261

/-- Source `getShardIndex` (lines 81-86): FNV-1a hash of the coupon string modulo
`numShards`. -/
def getShardIndex (couponStr : String) : Nat :=
  fnv32a couponStr % numShards

/-- The string a record is keyed by in the worker (lines 122-125): trimmed
only when `assumeCleanLines` is false.  (`strings.TrimSpace` is modelled by
`String.trim`; the pipeline runs with `assumeCleanLines = true`, so this
branch is dead in the shipped configuration.) -/
def ingestKey (assumeCleanLines : Bool) (s : String) : String :=
  if !assumeCleanLines then s.trim else s

/-- The worker's length filter (lines 127-128) applied to the ingest key:
the byte length must lie in the closed interval `[8, 10]`. -/
def ingestAccepts (assumeCleanLines : Bool) (s : String) : Prop :=
  8 ≤ (ingestKey assumeCleanLines s).utf8ByteSize ∧
    (ingestKey assumeCleanLines s).utf8ByteSize ≤ 10

instance (a : Bool) (s : String) : Decidable (ingestAccepts a s) := by
  unfold ingestAccepts; infer_instance

/-- One iteration of the worker loop (`workerSharded`, lines 121-137): trim
when configured to, drop the record unless its byte length is in `[8, 10]`,
otherwise OR its file bitmask into the local batch map at its key. -/
def workerStep (assumeCleanLines : Bool) (batch : String → Nat)
    (data : couponData) : String → Nat :=
  let couponStr := ingestKey assumeCleanLines data.couponString
  let couponLen := couponStr.utf8ByteSize
  if 8 ≤ couponLen ∧ couponLen ≤ 10 then
    fun c => if c = couponStr then batch c ||| data.fileBitmask else batch c
  else batch

/-- A worker consuming a stream of records into its local batch map
(the `for data := range dataChan` loop of `workerSharded`). -/
def workerRun (assumeCleanLines : Bool) (records : List couponData)
    (batch : String → Nat) : String → Nat :=
  records.foldl (workerStep assumeCleanLines) batch

/-- Source `flushBatchSharded` (lines 89-110): each batch entry is ORed into the map
of the shard its key hashes to.  Pointwise effect on the shard array: shard
`i` at key `c` gains `localBatch c` exactly when `c` routes to `i` (absent
batch keys carry mask `0`, and ORing `0` is a no-op, matching the skip of
zero masks at line 97). -/
def flushBatchSharded (localBatch : String → Nat)
    (sds : Nat → String → Nat) : Nat → String → Nat :=
  fun i c => if getShardIndex c = i then sds i c ||| localBatch c else sds i c

/-- The shard array right after `initShards` (source `initializeShards`,
lines 73-77): every shard map is empty. -/
def emptyShards : Nat → String → Nat := fun _ _ => 0

/-- Reading the accumulated mask of a code: look in the single shard the code
routes to (invariant of the sharded table). -/
def shardedLookup (sds : Nat → String → Nat) (c : String) : Nat :=
  sds (getShardIndex c) c

/-- A worker run split into flush batches: each batch is folded into a fresh
local map (line 135 allocates a new map after each flush) and then flushed
into the shard array. -/
def workerBatches (assumeCleanLines : Bool) (batches : List (List couponData))
    (sds : Nat → String → Nat) : Nat → String → Nat :=
  batches.foldl
    (fun acc b =>
      flushBatchSharded (workerRun assumeCleanLines b (fun _ => 0)) acc)
    sds

/-- The finalization sweep (lines 279-291): a code belongs to `s.coupons`
exactly when its accumulated mask has popcount at least 2. -/
def finalizeCoupons (sds : Nat → String → Nat) : String → Bool :=
  fun coupon => decide (2 ≤ onesCount32 (shardedLookup sds coupon))

/-- ASCII lowercasing of one character (the filenames the suffix check sees
are ASCII; Go uses `strings.ToLower`). -/
def asciiToLower (c : Char) : Char :=
  if c.isUpper then Char.ofNat (c.toNat + 32) else c

/-- Source `strings.HasSuffix(strings.ToLower(fp), ".gz")` (line 219). -/
def hasGzSuffix (p : String) : Bool :=
  ".gz".data.isSuffixOf (p.data.map asciiToLower)

/-- One input file as the reader goroutine observes it: its path, whether it
is a regular file, whether `os.Open` fails, whether `gzip.NewReader` rejects
the header (consulted only for `.gz` names), the lines the scanner delivers,
and whether `scanner.Err()` is non-nil after the scan loop (a mid-stream I/O
error or a line exceeding the scanner's buffer). -/
structure FSFile where
  path : String
  isRegular : Bool
  openFails : Bool
  gzipHeaderInvalid : Bool
  lines : List String
  midStreamError : Bool
deriving DecidableEq

/-- The critical errors a reader goroutine sends on `readerErrChan`. -/
inductive ReaderError where
  | openFailed (path : String)
  | gzipFailed (path : String)
deriving DecidableEq

/-- The error, if any, a reader sends on `readerErrChan` (lines 210-229):
an open failure, else a gzip-header failure on a `.gz` name.  A non-nil
`scanner.Err()` after the loop is only logged to stderr (lines 236-238) and
is deliberately NOT represented here, because the reader never reports it. -/
def readerFailure (f : FSFile) : Option ReaderError :=
  if f.openFails then some (.openFailed f.path)
  else if hasGzSuffix f.path && f.gzipHeaderInvalid then
    some (.gzipFailed f.path)
  else none

/-- One reader goroutine (lines 206-240): on a critical failure it enqueues
nothing and reports the error; otherwise it emits one record per scanned
line, tagged with `uint32(1 << fileIndex)`, and reports nothing — even when
`f.midStreamError` holds, since a scan error is only logged. -/
def runReader (f : FSFile) (fileIndex : Nat) :
    List couponData × Option ReaderError :=
  match readerFailure f with
  | some e => ([], some e)
  | none =>
    (f.lines.map (fun l => { couponString := l, fileBitmask := 1 <<< fileIndex }),
     none)

/-- All reader results, one per file, indexed from `start`
(the `for i, filePath := range filePaths` loop at line 204). -/
def readerOutputs : Nat → List FSFile → List (List couponData × Option ReaderError)
  | _, [] => []
  | i, f :: fs => runReader f i :: readerOutputs (i + 1) fs

/-- The canonical file-order concatenation of everything the readers put on
`dataChan`.  The real interleaving is scheduler-dependent; it is always a
permutation of this list, and the order-independence theorem shows any
permutation yields the same sharded masks. -/
def allRecords (files : List FSFile) : List couponData :=
  ((readerOutputs 0 files).map Prod.fst).flatten

/-- The first error the drain loop at lines 265-269 reads off
`readerErrChan` (modelled in file order; which error is first is immaterial
to every claim, only whether one exists). -/
def firstReaderError (files : List FSFile) : Option ReaderError :=
  ((readerOutputs 0 files).filterMap Prod.snd).head?

/-- Source `CouponStoreConcurrent` (lines 20-23): the validated membership set
(`map[string]struct{}` modelled as its membership function). -/
structure CouponStoreConcurrent where
  coupons : String → Bool

/-- Source `NewCouponStoreConcurrent` (lines 35-39): an empty store. -/
def NewCouponStoreConcurrent : CouponStoreConcurrent :=
  { coupons := fun _ => false }

/-- The errors `LoadAndFindValidCoupons` can return. -/
inductive BuildError where
  | dirMissing (dir : String)
  | wrongFileCount (dir : String) (found : Nat)
  | readerCritical (e : ReaderError)
deriving DecidableEq

/-- An input directory: its path, whether `os.Stat` finds it, and the entries
`filepath.Glob(dir/*)` returns (non-recursive, in sorted order). -/
structure Directory where
  path : String
  present : Bool
  entries : List FSFile

/-- Lines 183-191: keep exactly the glob results that are regular files
(directory entries and anything else non-regular are skipped). -/
def regularFiles (d : Directory) : List FSFile :=
  d.entries.filter (·.isRegular)

/-- The shard array after all workers have completed, for the canonical
record order and a single batch (justified by the order-independence
theorem): fold every record into one local batch map and flush it. -/
def buildShards (assumeCleanLines : Bool) (files : List FSFile) :
    Nat → String → Nat :=
  flushBatchSharded (workerRun assumeCleanLines (allRecords files) (fun _ => 0))
    emptyShards

/-- Source `LoadAndFindValidCoupons` (lines 149-306).  The store's coupon set is
cleared first (lines 166-168); then the directory is checked (lines
177-180), the regular files counted (lines 183-194), the readers and workers
run, reader-critical errors are drained (lines 265-269), and only then is
the validated set populated from the shards (lines 272-292).
`assumeCleanLines` is hard-coded `true` at line 201. -/
def LoadAndFindValidCoupons (s : CouponStoreConcurrent) (dir : Directory) :
    CouponStoreConcurrent × Option BuildError :=
  let s := { s with coupons := fun _ => false }
  if !dir.present then (s, some (.dirMissing dir.path))
  else
    let filePaths := regularFiles dir
    if filePaths.length ≠ 3 then
      (s, some (.wrongFileCount dir.path filePaths.length))
    else
      let assumeCleanLines := true
      let sds := buildShards assumeCleanLines filePaths
      match firstReaderError filePaths with
      | some e => (s, some (.readerCritical e))
      | none => ({ s with coupons := finalizeCoupons sds }, none)

/-- Source `GetCoupon` (lines 309-316): reject any code whose byte length is outside
`[8, 10]` before looking at the set, else answer membership. -/
def GetCoupon (s : CouponStoreConcurrent) (code : String) : Bool :=
  let codeLen := code.utf8ByteSize
  if codeLen < 8 || codeLen > 10 then false
  else s.coupons code

/-- The package-level singleton state (lines 26-32): whether `once` has
fired, the shared `*CouponStoreConcurrent`, and the remembered load error,
directory and success flag. -/
structure SingletonState where
  onceDone : Bool
  inst : Option CouponStoreConcurrent
  loadErr : Option BuildError
  loadDir : String
  loaded : Bool

/-- The zero values the package starts with. -/
def initialSingletonState : SingletonState :=
  { onceDone := false, inst := none, loadErr := none, loadDir := "", loaded := false }

/-- Source `CouponStoreConcurrentInstance` (lines 41-54): only the first call builds
(inside `once.Do`); every later call returns the remembered store and error.
A later call with a different directory merely prints a warning (lines
50-52), which has no effect on the state. -/
def CouponStoreConcurrentInstance (st : SingletonState) (dir : Directory) :
    SingletonState × Option CouponStoreConcurrent × Option BuildError :=
  let st :=
    if st.onceDone then st
    else
      let r := LoadAndFindValidCoupons NewCouponStoreConcurrent dir
      { onceDone := true, inst := some r.1, loadErr := r.2, loadDir := dir.path,
        loaded := r.2.isNone }
  (st, st.inst, st.loadErr)

/-- A plain, healthy input file: regular, opens fine, no gzip trouble, no
scan error. -/
def plainFile (p : String) (ls : List String) : FSFile :=
  { path := p, isRegular := true, openFails := false, gzipHeaderInvalid := false,
    lines := ls, midStreamError := false }

/-- A directory of exactly three plain files, as in the spec's end-to-end
scenarios. -/
def cleanDir (p : String) (L0 L1 L2 : List String) : Directory :=
  { path := p, present := true,
    entries := [plainFile "f1" L0, plainFile "f2" L1, plainFile "f3" L2] }

/-- How many of the three files contain the code (list membership, so
duplicates inside one file count once). -/
def filesContaining (c : String) (L0 L1 L2 : List String) : Nat :=
  (if c ∈ L0 then 1 else 0) + (if c ∈ L1 then 1 else 0) +
    (if c ∈ L2 then 1 else 0)

/-- Bitwise-OR fold of a list of masks (the algebraic skeleton of the
aggregation). -/
def orFold (l : List Nat) : Nat := l.foldr (fun m acc => m ||| acc) 0

/-- The mask one record contributes to one key of the aggregation: its file
bitmask when the record is accepted by the length filter and keyed by `c`,
nothing otherwise. -/
def contrib (a : Bool) (r : couponData) (c : String) : Nat :=
  if ingestAccepts a r.couponString ∧ ingestKey a r.couponString = c then
    r.fileBitmask
  else 0

/-- Scenario 5 of the spec: a padded code, its trimmed twin, and an unrelated
code. -/
def c1dir : Directory := cleanDir "p" [" PADDED08 "] ["PADDED08"] ["OTHERXYZ"]

/-- A directory whose first file hits a mid-stream scan error after one line
was already delivered. -/
def c3dir : Directory :=
  { path := "d", present := true,
    entries := [{ path := "f1", isRegular := true, openFails := false,
                  gzipHeaderInvalid := false, lines := ["AAAABBBB"],
                  midStreamError := true },
                plainFile "f2" ["AAAABBBB"], plainFile "f3" []] }

/-- First directory of the consecutive-build experiment: validates
`AAAABBBB`. -/
def c4d1 : Directory := cleanDir "d1" ["AAAABBBB"] ["AAAABBBB"] []

/-- Second directory of the consecutive-build experiment: would validate
`CCCCDDDD`. -/
def c4d2 : Directory := cleanDir "d2" ["CCCCDDDD"] ["CCCCDDDD"] []

/-- The first singleton call, on `c4d1`, from the package's zero state. -/
def c4run1 := CouponStoreConcurrentInstance initialSingletonState c4d1

/-- The consecutive second singleton call, on the different directory
`c4d2`. -/
def c4run2 := CouponStoreConcurrentInstance c4run1.1 c4d2

/-- A directory whose three files agree on a line of eight spaces. -/
def c5dir : Directory := cleanDir "d" ["        "] ["        "] []

/-- A directory path that does not exist. -/
def missingDir : Directory := { path := "gone", present := false, entries := [] }

/-- A directory with two regular files and one subdirectory entry. -/
def twoFileDir : Directory :=
  { path := "d", present := true,
    entries := [plainFile "f1" [], plainFile "f2" [],
                { path := "sub", isRegular := false, openFails := false,
                  gzipHeaderInvalid := false, lines := [],
                  midStreamError := false }] }

/-- A directory whose first file cannot be opened. -/
def openFailDir : Directory :=
  { path := "d", present := true,
    entries := [{ path := "f1", isRegular := true, openFails := true,
                  gzipHeaderInvalid := false, lines := [],
                  midStreamError := false },
                plainFile "f2" ["AAAABBBB"], plainFile "f3" ["AAAABBBB"]] }

/-! ### Algebra of the OR-aggregation -/

theorem orFold_nil : orFold [] = 0 := rfl

theorem orFold_cons (x : Nat) (l : List Nat) :
    orFold (x :: l) = x ||| orFold l := rfl

theorem orFold_append (l₁ l₂ : List Nat) :
    orFold (l₁ ++ l₂) = orFold l₁ ||| orFold l₂ := by
  induction l₁ with
  | nil => simp [orFold_nil, Nat.zero_or]
  | cons x l ih => simp [orFold_cons, ih, Nat.or_assoc]

theorem orFold_perm {l₁ l₂ : List Nat} (h : l₁.Perm l₂) :
    orFold l₁ = orFold l₂ := by
  induction h with
  | nil => rfl
  | cons x _ ih => simp [orFold_cons, ih]
  | swap x y l =>
      simp only [orFold_cons, ← Nat.or_assoc, Nat.or_comm x y]
  | trans _ _ ih₁ ih₂ => exact ih₁.trans ih₂

theorem orFold_flatten (ls : List (List Nat)) :
    orFold ls.flatten = orFold (ls.map orFold) := by
  induction ls with
  | nil => rfl
  | cons l ls ih => simp [orFold_cons, orFold_append, ih]

/-! ### Pointwise reading of the worker and the sharded table -/

theorem workerStep_apply (a : Bool) (m : String → Nat) (r : couponData)
    (c : String) : workerStep a m r c = m c ||| contrib a r c := by
  unfold workerStep contrib ingestAccepts
  by_cases h : 8 ≤ (ingestKey a r.couponString).utf8ByteSize ∧
      (ingestKey a r.couponString).utf8ByteSize ≤ 10
  · simp only [if_pos h]
    by_cases hc : c = ingestKey a r.couponString
    · simp [hc, if_pos h]
    · have hc' : ¬ ingestKey a r.couponString = c := fun h' => hc h'.symm
      simp [hc, hc', h]
  · simp [if_neg h, h]

theorem workerRun_apply (a : Bool) (l : List couponData) (m : String → Nat)
    (c : String) :
    workerRun a l m c = m c ||| orFold (l.map (fun r => contrib a r c)) := by
  induction l generalizing m with
  | nil => simp [workerRun, orFold_nil]
  | cons r l ih =>
      simp only [workerRun, List.foldl_cons, List.map_cons, orFold_cons]
      rw [show List.foldl (workerStep a) (workerStep a m r) l
            = workerRun a l (workerStep a m r) from rfl, ih,
        workerStep_apply, Nat.or_assoc]

theorem shardedLookup_flush (lb : String → Nat) (sds : Nat → String → Nat)
    (c : String) :
    shardedLookup (flushBatchSharded lb sds) c = shardedLookup sds c ||| lb c := by
  simp [shardedLookup, flushBatchSharded]

theorem shardedLookup_empty (c : String) : shardedLookup emptyShards c = 0 := rfl

theorem workerBatches_apply (a : Bool) (bs : List (List couponData))
    (sds : Nat → String → Nat) (c : String) :
    shardedLookup (workerBatches a bs sds) c
      = shardedLookup sds c
          ||| orFold (bs.map (fun b => workerRun a b (fun _ => 0) c)) := by
  induction bs generalizing sds with
  | nil => simp [workerBatches, orFold_nil]
  | cons b bs ih =>
      simp only [workerBatches, List.foldl_cons, List.map_cons, orFold_cons]
      rw [show List.foldl _ (flushBatchSharded (workerRun a b (fun _ => 0)) sds) bs
            = workerBatches a bs (flushBatchSharded (workerRun a b (fun _ => 0)) sds)
          from rfl, ih, shardedLookup_flush, Nat.or_assoc]

/-! ### Readers -/

theorem runReader_snd (f : FSFile) (i : Nat) :
    (runReader f i).2 = readerFailure f := by
  unfold runReader
  cases readerFailure f <;> rfl

theorem readerOutputs_filterMap_snd (fs : List FSFile) :
    ∀ i, (readerOutputs i fs).filterMap Prod.snd = fs.filterMap readerFailure := by
  induction fs with
  | nil => intro i; rfl
  | cons f fs ih =>
      intro i
      simp only [readerOutputs, List.filterMap_cons, runReader_snd]
      cases readerFailure f <;> simp [ih]

theorem firstReaderError_eq (fs : List FSFile) :
    firstReaderError fs = (fs.filterMap readerFailure).head? := by
  simp [firstReaderError, readerOutputs_filterMap_snd]

theorem firstReaderError_none (fs : List FSFile)
    (h : ∀ f ∈ fs, readerFailure f = none) : firstReaderError fs = none := by
  rw [firstReaderError_eq, List.filterMap_eq_nil_iff.mpr h]
  rfl

theorem firstReaderError_isSome (fs : List FSFile)
    (h : ∃ f ∈ fs, readerFailure f ≠ none) :
    ∃ e, firstReaderError fs = some e := by
  rw [firstReaderError_eq]
  obtain ⟨f, hf, hfail⟩ := h
  obtain ⟨e, he⟩ := Option.ne_none_iff_exists'.mp hfail
  have hmem : e ∈ fs.filterMap readerFailure :=
    List.mem_filterMap.mpr ⟨f, hf, he⟩
  cases hl : fs.filterMap readerFailure with
  | nil => rw [hl] at hmem; cases hmem
  | cons x xs => exact ⟨x, rfl⟩

theorem readerFailure_plainFile (p : String) (ls : List String) :
    readerFailure (plainFile p ls) = none := by
  simp [readerFailure, plainFile]

theorem allRecords_three (f0 f1 f2 : FSFile)
    (h0 : readerFailure f0 = none) (h1 : readerFailure f1 = none)
    (h2 : readerFailure f2 = none) :
    allRecords [f0, f1, f2]
      = (f0.lines.map fun l => { couponString := l, fileBitmask := 1 })
        ++ (f1.lines.map fun l => { couponString := l, fileBitmask := 2 })
        ++ (f2.lines.map fun l => { couponString := l, fileBitmask := 4 }) := by
  simp [allRecords, readerOutputs, runReader, h0, h1, h2, List.append_assoc]

/-! ### Per-file contribution of the OR aggregation -/

theorem orFold_contribs_file (a : Bool) (mask : Nat) (c : String)
    (L : List String) :
    orFold ((L.map fun l =>
        ({ couponString := l, fileBitmask := mask } : couponData)).map
          fun r => contrib a r c)
      = if ∃ l ∈ L, ingestAccepts a l ∧ ingestKey a l = c then mask else 0 := by
  induction L with
  | nil => simp [orFold_nil]
  | cons l L ih =>
      simp only [List.map_cons, orFold_cons, ih]
      by_cases hl : ingestAccepts a l ∧ ingestKey a l = c
      · by_cases hL : ∃ x ∈ L, ingestAccepts a x ∧ ingestKey a x = c
        · simp [contrib, hl, hL, Nat.or_self,
            show ∃ x ∈ l :: L, ingestAccepts a x ∧ ingestKey a x = c from
              ⟨l, List.mem_cons_self l L, hl⟩]
        · simp [contrib, hl, hL, Nat.or_zero,
            show ∃ x ∈ l :: L, ingestAccepts a x ∧ ingestKey a x = c from
              ⟨l, List.mem_cons_self l L, hl⟩]
      · have : (∃ x ∈ l :: L, ingestAccepts a x ∧ ingestKey a x = c)
            ↔ ∃ x ∈ L, ingestAccepts a x ∧ ingestKey a x = c := by
          constructor
          · rintro ⟨x, hx, hxa⟩
            rcases List.mem_cons.mp hx with rfl | hx
            · exact absurd hxa hl
            · exact ⟨x, hx, hxa⟩
          · rintro ⟨x, hx, hxa⟩
            exact ⟨x, List.mem_cons_of_mem _ hx, hxa⟩
        simp [contrib, hl, this, Nat.zero_or]

theorem ingestKey_true (s : String) : ingestKey true s = s := rfl

theorem exists_accept_mem (c : String) (L : List String) :
    (∃ l ∈ L, ingestAccepts true l ∧ ingestKey true l = c)
      ↔ ingestAccepts true c ∧ c ∈ L := by
  constructor
  · rintro ⟨l, hl, ha, hk⟩
    rw [ingestKey_true] at hk
    subst hk
    exact ⟨ha, hl⟩
  · rintro ⟨ha, hm⟩
    exact ⟨c, hm, ha, rfl⟩

/-! ### The mask the pipeline accumulates for each code -/

theorem buildShards_lookup (a : Bool) (files : List FSFile) (c : String) :
    shardedLookup (buildShards a files) c
      = orFold ((allRecords files).map fun r => contrib a r c) := by
  unfold buildShards
  rw [shardedLookup_flush, shardedLookup_empty, Nat.zero_or, workerRun_apply,
    Nat.zero_or]

theorem regularFiles_cleanDir (p : String) (L0 L1 L2 : List String) :
    regularFiles (cleanDir p L0 L1 L2)
      = [plainFile "f1" L0, plainFile "f2" L1, plainFile "f3" L2] := by
  simp [regularFiles, cleanDir, plainFile, List.filter]

theorem cleanDir_mask (p : String) (L0 L1 L2 : List String) (c : String) :
    shardedLookup (buildShards true (regularFiles (cleanDir p L0 L1 L2))) c
      = (if ingestAccepts true c ∧ c ∈ L0 then 1 else 0)
          ||| ((if ingestAccepts true c ∧ c ∈ L1 then 2 else 0)
            ||| (if ingestAccepts true c ∧ c ∈ L2 then 4 else 0)) := by
  rw [buildShards_lookup, regularFiles_cleanDir,
    allRecords_three _ _ _ (readerFailure_plainFile _ _)
      (readerFailure_plainFile _ _) (readerFailure_plainFile _ _)]
  simp only [plainFile, List.map_append, orFold_append]
  rw [orFold_contribs_file, orFold_contribs_file, orFold_contribs_file]
  simp only [exists_accept_mem, Nat.or_assoc]

theorem onesCount_three (p0 p1 p2 : Prop) [Decidable p0] [Decidable p1]
    [Decidable p2] :
    onesCount32 ((if p0 then 1 else 0)
        ||| ((if p1 then 2 else 0) ||| (if p2 then 4 else 0)))
      = (if p0 then 1 else 0) + (if p1 then 1 else 0) + (if p2 then 1 else 0) := by
  by_cases h0 : p0 <;> by_cases h1 : p1 <;> by_cases h2 : p2 <;>
    simp only [h0, h1, h2, if_true, if_false] <;> decide

theorem load_success (s : CouponStoreConcurrent) (dir : Directory)
    (hp : dir.present = true) (h3 : (regularFiles dir).length = 3)
    (hok : firstReaderError (regularFiles dir) = none) :
    LoadAndFindValidCoupons s dir
      = ({ coupons := finalizeCoupons (buildShards true (regularFiles dir)) },
         none) := by
  unfold LoadAndFindValidCoupons
  simp [hp, h3, hok]

theorem cleanDir_load (s : CouponStoreConcurrent) (p : String)
    (L0 L1 L2 : List String) :
    LoadAndFindValidCoupons s (cleanDir p L0 L1 L2)
      = ({ coupons :=
             finalizeCoupons
               (buildShards true (regularFiles (cleanDir p L0 L1 L2))) },
         none) := by
  apply load_success
  · rfl
  · rw [regularFiles_cleanDir]; rfl
  · rw [regularFiles_cleanDir]
    apply firstReaderError_none
    intro f hf
    rcases List.mem_cons.mp hf with rfl | hf
    · exact readerFailure_plainFile _ _
    rcases List.mem_cons.mp hf with rfl | hf
    · exact readerFailure_plainFile _ _
    rcases List.mem_cons.mp hf with rfl | hf
    · exact readerFailure_plainFile _ _
    · cases hf

theorem coupons_cleanDir (p : String) (L0 L1 L2 : List String) (c : String) :
    (LoadAndFindValidCoupons NewCouponStoreConcurrent
        (cleanDir p L0 L1 L2)).1.coupons c
      = decide (ingestAccepts true c ∧ 2 ≤ filesContaining c L0 L1 L2) := by
  rw [cleanDir_load]
  show finalizeCoupons _ c = _
  unfold finalizeCoupons
  rw [cleanDir_mask]
  by_cases ha : ingestAccepts true c
  · simp only [ha, true_and, onesCount_three]
    rw [decide_eq_decide]
    unfold filesContaining
    exact Iff.rfl
  · have hz : ∀ q : Prop, (ingestAccepts true c ∧ q) = False := by
      intro q; simp [ha]
    simp only [hz, if_false]
    simp [ha]
    decide

theorem contrib_zero_of_not_accepts (r : couponData) (c : String)
    (h : ¬ ingestAccepts true c) : contrib true r c = 0 := by
  unfold contrib
  rw [if_neg]
  rintro ⟨ha, hk⟩
  rw [ingestKey_true] at hk
  subst hk
  exact h ha

theorem orFold_all_zero (l : List Nat) (h : ∀ x ∈ l, x = 0) : orFold l = 0 := by
  induction l with
  | nil => rfl
  | cons x l ih =>
      rw [orFold_cons, h x (List.mem_cons_self x l), Nat.zero_or]
      exact ih fun x hx => h x (List.mem_cons_of_mem _ hx)

theorem buildShards_zero_of_not_accepts (files : List FSFile) (c : String)
    (h : ¬ ingestAccepts true c) :
    shardedLookup (buildShards true files) c = 0 := by
  rw [buildShards_lookup]
  apply orFold_all_zero
  intro x hx
  obtain ⟨r, _, rfl⟩ := List.mem_map.mp hx
  exact contrib_zero_of_not_accepts r c h

theorem load_reader_error (s : CouponStoreConcurrent) (dir : Directory)
    (e : ReaderError) (hp : dir.present = true)
    (h3 : (regularFiles dir).length = 3)
    (he : firstReaderError (regularFiles dir) = some e) :
    LoadAndFindValidCoupons s dir
      = ({ coupons := fun _ => false }, some (.readerCritical e)) := by
  unfold LoadAndFindValidCoupons
  simp [hp, h3, he]

/-! ### The claims -/

/-- Claim C1, counterexample.  The spec's scenario 5 (f1 = [" PADDED08 "],
f2 = ["PADDED08"], f3 = ["OTHERXYZ"]) claims the validated set is exactly
{"PADDED08"}.  On the code, `assumeCleanLines` is hard-coded `true`, so the
padded line is never trimmed; " PADDED08 " and "PADDED08" are distinct keys
with one file each, the build succeeds, and `GetCoupon "PADDED08"` is
`false` — the validated set is not {"PADDED08"}. -/
theorem claim_C1_counterexample :
    (LoadAndFindValidCoupons NewCouponStoreConcurrent c1dir).2 = none ∧
    GetCoupon (LoadAndFindValidCoupons NewCouponStoreConcurrent c1dir).1
        "PADDED08" = false := by
  exact ⟨by decide, by decide⟩

/-- Claim C1, amended.  Because the shipped pipeline never trims
(`assumeCleanLines = true` at line 201), `GetCoupon c` after a successful
build over three plain files is `true` iff the untrimmed `c` has byte length
in [8, 10] and appears verbatim in at least two of the three files; on the
scenario-5 inputs the validated set is therefore empty. -/
theorem claim_C1_amended :
    (∀ (p : String) (L0 L1 L2 : List String) (c : String),
       GetCoupon (LoadAndFindValidCoupons NewCouponStoreConcurrent
           (cleanDir p L0 L1 L2)).1 c = true
         ↔ 8 ≤ c.utf8ByteSize ∧ c.utf8ByteSize ≤ 10 ∧
             2 ≤ filesContaining c L0 L1 L2) ∧
    (∀ c : String,
       (LoadAndFindValidCoupons NewCouponStoreConcurrent c1dir).1.coupons c
         = false) := by
  constructor
  · intro p L0 L1 L2 c
    have hc := coupons_cleanDir p L0 L1 L2 c
    simp only [GetCoupon]
    by_cases hif : (decide (c.utf8ByteSize < 8) || decide (c.utf8ByteSize > 10))
        = true
    · rw [if_pos hif]
      simp only [Bool.false_eq_true, false_iff]
      rintro ⟨hl, hr, -⟩
      rcases Bool.or_eq_true_iff.mp hif with hb | hb <;>
        [skip; skip] <;> rw [decide_eq_true_iff] at hb <;> omega
    · rw [if_neg hif, hc, decide_eq_true_iff]
      have hb : ¬ c.utf8ByteSize < 8 ∧ ¬ c.utf8ByteSize > 10 := by
        constructor <;> intro hx <;> exact hif (by simp [hx])
      exact ⟨fun ⟨⟨h1, h2⟩, h3⟩ => ⟨h1, h2, h3⟩,
             fun ⟨h1, h2, h3⟩ => ⟨⟨h1, h2⟩, h3⟩⟩
  · intro c
    unfold c1dir
    rw [coupons_cleanDir, decide_eq_false_iff_not]
    rintro ⟨-, hfc⟩
    unfold filesContaining at hfc
    by_cases e0 : c ∈ [" PADDED08 "] <;> by_cases e1 : c ∈ ["PADDED08"] <;>
        by_cases e2 : c ∈ ["OTHERXYZ"] <;> simp only [e0, e1, e2, if_true,
          if_false] at hfc <;>
      first
        | omega
        | (rw [List.mem_singleton] at e0 e1 e2
           first
             | (subst e0; revert e1; decide)
             | (subst e0; revert e2; decide)
             | (subst e1; revert e2; decide))

/-- Claim C2: `GetCoupon s q` is `true` iff `q`, after the ingestion-time
key transformation (no trim, since `assumeCleanLines = true`) and the same
[8, 10] byte-length filter, is a member of the validated set; a code with
length outside [8, 10] is rejected with `false` before the set is consulted
(for every store, hence without depending on the set). -/
theorem claim_C2 (s : CouponStoreConcurrent) (q : String) :
    (GetCoupon s q = true
       ↔ ingestAccepts true q ∧ s.coupons (ingestKey true q) = true) ∧
    (¬ ingestAccepts true q → GetCoupon s q = false) := by
  have hkey : ingestKey true q = q := rfl
  have hacc : ingestAccepts true q ↔ 8 ≤ q.utf8ByteSize ∧ q.utf8ByteSize ≤ 10 := by
    unfold ingestAccepts
    rw [hkey]
  constructor
  · simp only [GetCoupon, hkey]
    by_cases hif : (decide (q.utf8ByteSize < 8) || decide (q.utf8ByteSize > 10))
        = true
    · rw [if_pos hif]
      simp only [Bool.false_eq_true, false_iff]
      rintro ⟨ha, -⟩
      rw [hacc] at ha
      rcases Bool.or_eq_true_iff.mp hif with hb | hb <;>
        rw [decide_eq_true_iff] at hb <;> omega
    · rw [if_neg hif]
      have hb : ¬ q.utf8ByteSize < 8 ∧ ¬ q.utf8ByteSize > 10 := by
        constructor <;> intro hx <;> exact hif (by simp [hx])
      constructor
      · intro h
        exact ⟨hacc.mpr ⟨by omega, by omega⟩, h⟩
      · intro h
        exact h.2
  · intro h
    rw [hacc] at h
    simp only [GetCoupon]
    rw [if_pos (by simp only [Bool.or_eq_true_iff, decide_eq_true_iff]; omega)]

/-- Claim C2, witness: a two-byte code is rejected without consulting any
set. -/
theorem claim_C2_witness : GetCoupon NewCouponStoreConcurrent "AB" = false :=
  (claim_C2 NewCouponStoreConcurrent "AB").2 (by decide)

/-- Claim C3, counterexample.  In `c3dir` the first file hits a mid-stream
scan error (`scanner.Err() ≠ nil`, e.g. an I/O failure or a line exceeding
the scanner's buffer) after delivering one line.  The claim says the build
must fail, but the code only logs the scan error (lines 236-238) and never
puts it on `readerErrChan`, so the build succeeds and even validates the
code. -/
theorem claim_C3_counterexample :
    (LoadAndFindValidCoupons NewCouponStoreConcurrent c3dir).2 = none ∧
    GetCoupon (LoadAndFindValidCoupons NewCouponStoreConcurrent c3dir).1
        "AAAABBBB" = true := by
  exact ⟨by decide, by decide⟩

/-- Claim C3, amended.  Only open failures and gzip-header failures are
reported on the error channel; whenever all three files pass those two
checks the build returns no error, regardless of any mid-stream scan error
(`midStreamError` is unconstrained here). -/
theorem claim_C3_amended (s : CouponStoreConcurrent) (dir : Directory)
    (hp : dir.present = true) (h3 : (regularFiles dir).length = 3)
    (hok : ∀ f ∈ regularFiles dir, readerFailure f = none) :
    (LoadAndFindValidCoupons s dir).2 = none := by
  rw [load_success s dir hp h3 (firstReaderError_none _ hok)]

/-- Claim C3, witness: the amended statement applied to `c3dir`, whose first
file carries a mid-stream error. -/
theorem claim_C3_witness :
    (LoadAndFindValidCoupons NewCouponStoreConcurrent c3dir).2 = none :=
  claim_C3_amended NewCouponStoreConcurrent c3dir (by decide) (by decide)
    (by decide)

/-- Claim C4, counterexample.  Two consecutive `CouponStoreConcurrentInstance`
calls with the different directories `c4d1` (validating "AAAABBBB") and
`c4d2` (which would validate "CCCCDDDD"): the second call returns a
validator that rejects its own directory's code and accepts the first
directory's code, with no error — so the second validator's membership is
NOT determined by its own directory. -/
theorem claim_C4_counterexample :
    c4run2.2.1.map (fun s => GetCoupon s "CCCCDDDD") = some false ∧
    c4run2.2.1.map (fun s => GetCoupon s "AAAABBBB") = some true ∧
    c4run2.2.2 = none := by
  exact ⟨by decide, by decide, by decide⟩

/-- Claim C4, amended.  Under the `sync.Once` singleton only the first call
builds: a second call, with any directory whatsoever, returns exactly the
first call's state, store and error, so its membership set is determined
solely by the FIRST directory and the second directory never influences
it.  (Cross-run independence as claimed does not hold for
`CouponStoreConcurrentInstance`.) -/
theorem claim_C4_amended (d1 d2 : Directory) :
    CouponStoreConcurrentInstance
        (CouponStoreConcurrentInstance initialSingletonState d1).1 d2
      = CouponStoreConcurrentInstance initialSingletonState d1 := by
  unfold CouponStoreConcurrentInstance initialSingletonState
  generalize LoadAndFindValidCoupons NewCouponStoreConcurrent d1 = r
  simp

/-- Claim C5, counterexample.  A line of eight spaces is whitespace-only,
yet with `assumeCleanLines = true` it is never trimmed, its length 8 passes
the filter, and appearing in two files of `c5dir` it enters the validated
membership set. -/
theorem claim_C5_counterexample :
    (LoadAndFindValidCoupons NewCouponStoreConcurrent c5dir).2 = none ∧
    (LoadAndFindValidCoupons NewCouponStoreConcurrent c5dir).1.coupons
        "        " = true := by
  exact ⟨by decide, by decide⟩

/-- Claim C5, amended.  Empty lines, and whitespace-only lines whose length
is outside [8, 10], are ignored: no code whose untrimmed byte length is
outside [8, 10] (which covers the empty line, length 0) ever enters the
membership set.  A whitespace-only line of length 8-10 is NOT ignored. -/
theorem claim_C5_amended (s : CouponStoreConcurrent) (dir : Directory)
    (c : String) (h : ¬ ingestAccepts true c) :
    (LoadAndFindValidCoupons s dir).1.coupons c = false := by
  rcases hb : dir.present with _ | _
  · simp [LoadAndFindValidCoupons, hb]
  · by_cases h3 : (regularFiles dir).length ≠ 3
    · simp [LoadAndFindValidCoupons, hb, h3]
    · rw [Classical.not_not] at h3
      cases hfe : firstReaderError (regularFiles dir) with
      | some e => rw [load_reader_error s dir e hb h3 hfe]
      | none =>
          rw [load_success s dir hb h3 hfe]
          show finalizeCoupons _ c = false
          unfold finalizeCoupons
          rw [buildShards_zero_of_not_accepts _ _ h]
          decide

/-- Claim C5, witness: the empty line never enters the set, here for a
directory that does contain empty lines. -/
theorem claim_C5_witness :
    (LoadAndFindValidCoupons NewCouponStoreConcurrent
        (cleanDir "d" [""] [""] [""])).1.coupons "" = false :=
  claim_C5_amended NewCouponStoreConcurrent (cleanDir "d" [""] [""] [""]) ""
    (by decide)

/-- Claim C6: for any code accepted by the length filter and observed in at
least one file, the popcount of the mask the pipeline accumulates for it
equals the number of distinct files containing it; multiplicity inside a
single file is irrelevant because the per-file one-hot bit is combined by
idempotent OR (`filesContaining` counts by membership, not occurrences). -/
theorem claim_C6 (p : String) (L0 L1 L2 : List String) (c : String)
    (h8 : 8 ≤ c.utf8ByteSize) (h10 : c.utf8ByteSize ≤ 10)
    (_hobs : 1 ≤ filesContaining c L0 L1 L2) :
    onesCount32
        (shardedLookup (buildShards true (regularFiles (cleanDir p L0 L1 L2))) c)
      = filesContaining c L0 L1 L2 := by
  have ha : ingestAccepts true c := ⟨h8, h10⟩
  rw [cleanDir_mask]
  simp only [ha, true_and]
  rw [onesCount_three]
  rfl

/-- Claim C6, witness: spec scenario 4 — the code occurs three times in the
first file and once in the second; its mask's popcount is 2, the number of
distinct files. -/
theorem claim_C6_witness :
    onesCount32
        (shardedLookup
          (buildShards true
            (regularFiles
              (cleanDir "p" ["GZCODE001", "GZCODE001", "GZCODE001"]
                ["GZCODE001"] []))) "GZCODE001")
      = filesContaining "GZCODE001" ["GZCODE001", "GZCODE001", "GZCODE001"]
          ["GZCODE001"] [] ∧
    filesContaining "GZCODE001" ["GZCODE001", "GZCODE001", "GZCODE001"]
        ["GZCODE001"] [] = 2 :=
  ⟨claim_C6 "p" ["GZCODE001", "GZCODE001", "GZCODE001"] ["GZCODE001"] []
      "GZCODE001" (by decide) (by decide) (by decide),
   by decide⟩

/-- Claim C7: a missing directory fails the build with the directory-missing
error, and a present directory whose non-recursive enumeration (directory
entries skipped by the regular-file filter) yields other than three regular
files fails with the wrong-file-count error; in both cases the returned
store's membership set is empty. -/
theorem claim_C7 (s : CouponStoreConcurrent) (dir : Directory) :
    (dir.present = false →
       LoadAndFindValidCoupons s dir
         = ({ coupons := fun _ => false }, some (.dirMissing dir.path))) ∧
    (dir.present = true → (regularFiles dir).length ≠ 3 →
       LoadAndFindValidCoupons s dir
         = ({ coupons := fun _ => false },
            some (.wrongFileCount dir.path (regularFiles dir).length))) := by
  constructor
  · intro h
    simp [LoadAndFindValidCoupons, h]
  · intro hp h3
    simp [LoadAndFindValidCoupons, hp, h3]

/-- Claim C7, witness: a missing directory and a directory holding two
regular files plus one subdirectory entry (counted as 2, not 3). -/
theorem claim_C7_witness :
    (LoadAndFindValidCoupons NewCouponStoreConcurrent missingDir).2
        = some (.dirMissing "gone") ∧
    (LoadAndFindValidCoupons NewCouponStoreConcurrent twoFileDir).2
        = some (.wrongFileCount "d" 2) := by
  constructor
  · rw [(claim_C7 NewCouponStoreConcurrent missingDir).1 rfl]
    rfl
  · rw [(claim_C7 NewCouponStoreConcurrent twoFileDir).2 rfl (by decide)]
    rfl

/-- Claim C8: if any of the three regular files fails to open, or has a
(case-insensitive) `.gz` name with an invalid gzip header, the reader
reports it and the build returns a reader-critical error with an empty
membership set — no validator content is produced. -/
theorem claim_C8 (s : CouponStoreConcurrent) (dir : Directory)
    (hp : dir.present = true) (h3 : (regularFiles dir).length = 3)
    (hf : ∃ f ∈ regularFiles dir, readerFailure f ≠ none) :
    (∃ e, (LoadAndFindValidCoupons s dir).2 = some (.readerCritical e)) ∧
    ∀ c, (LoadAndFindValidCoupons s dir).1.coupons c = false := by
  obtain ⟨e, he⟩ := firstReaderError_isSome _ hf
  rw [load_reader_error s dir e hp h3 he]
  exact ⟨⟨e, rfl⟩, fun c => rfl⟩

/-- Claim C8, witness: the build over `openFailDir`, whose first file cannot
be opened, fails with a reader-critical error and validates nothing — not
even the code present in the two healthy files. -/
theorem claim_C8_witness :
    (∃ e, (LoadAndFindValidCoupons NewCouponStoreConcurrent openFailDir).2
        = some (.readerCritical e)) ∧
    (LoadAndFindValidCoupons NewCouponStoreConcurrent openFailDir).1.coupons
        "AAAABBBB" = false :=
  ⟨(claim_C8 NewCouponStoreConcurrent openFailDir rfl (by decide)
      (by decide)).1,
   (claim_C8 NewCouponStoreConcurrent openFailDir rfl (by decide)
      (by decide)).2 "AAAABBBB"⟩

/-- Claim C9: for a fixed assignment of lines to files, any partition of the
records into worker flush batches whose concatenation is any permutation of
the emitted records yields the same accumulated mask for every code and the
same final membership set as the canonical single-batch run — the OR
aggregation is commutative, associative and idempotent, so delivery order
and batching are immaterial. -/
theorem claim_C9 (a : Bool) (files : List FSFile)
    (bs : List (List couponData)) (h : bs.flatten.Perm (allRecords files))
    (c : String) :
    shardedLookup (workerBatches a bs emptyShards) c
        = shardedLookup (buildShards a files) c ∧
    finalizeCoupons (workerBatches a bs emptyShards) c
        = finalizeCoupons (buildShards a files) c := by
  have h1 : ∀ b : List couponData,
      workerRun a b (fun _ => 0) c = orFold (b.map fun r => contrib a r c) := by
    intro b
    rw [workerRun_apply, Nat.zero_or]
  have hmask : shardedLookup (workerBatches a bs emptyShards) c
      = shardedLookup (buildShards a files) c := by
    rw [workerBatches_apply, shardedLookup_empty, Nat.zero_or,
      buildShards_lookup]
    calc orFold (bs.map fun b => workerRun a b (fun _ => 0) c)
        = orFold (bs.map fun b => orFold (b.map fun r => contrib a r c)) := by
          simp only [h1]
      _ = orFold ((bs.map fun b => b.map fun r => contrib a r c).map orFold) := by
          rw [List.map_map]
          rfl
      _ = orFold (bs.map fun b => b.map fun r => contrib a r c).flatten :=
          (orFold_flatten _).symm
      _ = orFold (bs.flatten.map fun r => contrib a r c) := by
          rw [List.map_flatten]
      _ = orFold ((allRecords files).map fun r => contrib a r c) :=
          orFold_perm (h.map _)
  refine ⟨hmask, ?_⟩
  unfold finalizeCoupons
  rw [hmask]

/-- Claim C9, witness: two batches delivering the two files' records in
swapped order produce the same mask for the code as the canonical run. -/
theorem claim_C9_witness :
    ([[({ couponString := "AAAABBBB", fileBitmask := 2 } : couponData)],
      [({ couponString := "AAAABBBB", fileBitmask := 1 } : couponData)]].flatten).Perm
        (allRecords [plainFile "f1" ["AAAABBBB"], plainFile "f2" ["AAAABBBB"]]) ∧
    shardedLookup
        (workerBatches true
          [[({ couponString := "AAAABBBB", fileBitmask := 2 } : couponData)],
           [({ couponString := "AAAABBBB", fileBitmask := 1 } : couponData)]]
          emptyShards) "AAAABBBB"
      = shardedLookup
          (buildShards true
            [plainFile "f1" ["AAAABBBB"], plainFile "f2" ["AAAABBBB"]])
          "AAAABBBB" :=
  ⟨by decide,
   (claim_C9 true [plainFile "f1" ["AAAABBBB"], plainFile "f2" ["AAAABBBB"]]
      [[{ couponString := "AAAABBBB", fileBitmask := 2 }],
       [{ couponString := "AAAABBBB", fileBitmask := 1 }]]
      (by decide) "AAAABBBB").1⟩

/-- Claim C10: whenever the build returns an error — missing directory,
wrong file count, or a reader-critical error — the returned store's
membership set is empty, and consequently every `GetCoupon` query answers
`false`: the set is cleared at the start of the build and only repopulated
on the success path. -/
theorem claim_C10 (s : CouponStoreConcurrent) (dir : Directory)
    (e : BuildError) (h : (LoadAndFindValidCoupons s dir).2 = some e) :
    (∀ c, (LoadAndFindValidCoupons s dir).1.coupons c = false) ∧
    (∀ c, GetCoupon (LoadAndFindValidCoupons s dir).1 c = false) := by
  have hstore : ∀ c, (LoadAndFindValidCoupons s dir).1.coupons c = false := by
    rcases hb : dir.present with _ | _
    · intro c
      simp [LoadAndFindValidCoupons, hb]
    · by_cases h3 : (regularFiles dir).length ≠ 3
      · intro c
        simp [LoadAndFindValidCoupons, hb, h3]
      · rw [Classical.not_not] at h3
        cases hfe : firstReaderError (regularFiles dir) with
        | some e' =>
            rw [load_reader_error s dir e' hb h3 hfe]
            intro c
            rfl
        | none =>
            rw [load_success s dir hb h3 hfe] at h
            cases h
  refine ⟨hstore, fun c => ?_⟩
  simp only [GetCoupon]
  rw [hstore c]
  split <;> rfl

/-- Claim C10, witness: after the failing build over the missing directory,
a code query returns `false`. -/
theorem claim_C10_witness :
    GetCoupon (LoadAndFindValidCoupons NewCouponStoreConcurrent missingDir).1
        "AAAABBBB" = false :=
  (claim_C10 NewCouponStoreConcurrent missingDir (.dirMissing "gone")
      (by decide)).2 "AAAABBBB"

end OolioCoupons
